import Mathlib

/-!
Shallow embedding of `src/server.js` (impexinfo-server): the blog CRUD
handlers, the contact-form handler, the error middleware and the startup
sequencing (database connect retry and port binding with linear probe).

Conventions of the embedding:
* JavaScript string-field truthiness (`!x` is true for a missing field and
  for the empty string) is `jsFalsy` over `Option String`.
* The document store is a `List Blog`; the driver's `findById` is modelled
  as a lookup guarded by an abstract identifier-format predicate
  `isValidId` (mongoose raises `CastError` exactly when the identifier is
  not in the accepted format; the handlers only branch on that error name,
  so the format itself stays a parameter).
* Mongoose schema validation (`BlogSchema`, server.js lines 114-143) is
  embedded as message-list computations: `required` with `trim` fails on a
  string empty after trimming, `maxlength 100` on the title, and the
  `status` enum check.
* Express responses are constructors of `BlogResp` / `ContactResp`, one per
  distinct `res.status(..).json(..)` site, with the HTTP code and the
  `success` flag of the envelope recovered by functions.
-/

namespace ImpexInfo

/-- JavaScript falsiness of an optional string field: `!x` holds when the
field is absent or is the empty string. -/
def jsFalsy : Option String → Bool
  | none => true
  | some s => s == ""

/-- A persisted blog document (BlogSchema, server.js lines 114-145). -/
structure Blog where
  id : String
  title : String
  description : String
  category : String
  imageUrl : String
  status : String
  createdAt : Nat
  updatedAt : Nat
deriving DecidableEq, Repr

/-- The request body of `POST /api/blog/new` as the handler reads it
(server.js line 240): each schema field may be absent. -/
structure CreateBody where
  title : Option String
  description : Option String
  category : Option String
  status : Option String
  imageUrl : Option String
deriving DecidableEq, Repr

/-- The request body of `PUT /api/blog/:id`: a partial update, absent
fields untouched. -/
structure UpdateBody where
  title : Option String
  description : Option String
  category : Option String
  status : Option String
  imageUrl : Option String
deriving DecidableEq, Repr

/-- The distinct JSON responses the blog handlers emit, one constructor per
`res.status(..).json(..)` site in server.js lines 177-350. -/
inductive BlogResp where
  | listOk (count : Nat) (data : List Blog)
  | getOk (b : Blog)
  | createOk (b : Blog)
  | updateOk (b : Blog)
  | deleteOk
  | missingFields
  | invalidStatus
  | invalidId
  | notFound
  | validationFailed (messages : List String)
deriving DecidableEq, Repr

/-- The HTTP status code each response site sets. -/
def BlogResp.statusCode : BlogResp → Nat
  | .listOk _ _ => 200
  | .getOk _ => 200
  | .createOk _ => 201
  | .updateOk _ => 200
  | .deleteOk => 200
  | .missingFields => 400
  | .invalidStatus => 400
  | .invalidId => 400
  | .notFound => 404
  | .validationFailed _ => 400

/-- The `success` flag of the JSON envelope each response site emits. -/
def BlogResp.success : BlogResp → Bool
  | .listOk _ _ => true
  | .getOk _ => true
  | .createOk _ => true
  | .updateOk _ => true
  | .deleteOk => true
  | _ => false

/-- Mongoose's enum error message for the `status` path of BlogSchema. -/
def statusEnumMessage (v : String) : String :=
  "`" ++ v ++ "` is not a valid enum value for path `status`."

/-- Validation messages for the `title` path: `required` (after `trim`) and
`maxlength 100` (server.js lines 115-120). -/
def titleMessages : Option String → List String
  | none => ["Blog title is required"]
  | some s =>
    let t := s.trim
    if t == "" then ["Blog title is required"]
    else if t.length > 100 then ["Title cannot be more than 100 characters"]
    else []

/-- Validation messages for a `required` + `trim` string path with the given
message (description, category, imageUrl). -/
def requiredTrimMessages (msg : String) : Option String → List String
  | none => [msg]
  | some s => if s.trim == "" then [msg] else []

/-- Validation messages for the `status` enum path on a full document:
an absent status takes the schema default `draft` and passes. -/
def statusMessagesCreate : Option String → List String
  | none => []
  | some s =>
    if s == "published" || s == "draft" then [] else [statusEnumMessage s]

/-- Schema validation of a full document, as `Blog.create` runs it: the
per-path messages in path order. -/
def createValidationMessages (b : CreateBody) : List String :=
  titleMessages b.title
    ++ requiredTrimMessages "Blog description is required" b.description
    ++ requiredTrimMessages "Blog category is required" b.category
    ++ requiredTrimMessages "Blog image URL is required" b.imageUrl
    ++ statusMessagesCreate b.status

/-- The store-level create (`Blog.create(req.body)`, server.js line 257):
validate against the schema; on success append the new document with
trimmed string fields, `status` defaulted to `draft`, and fresh
timestamps. -/
def storeCreate (store : List Blog) (b : CreateBody) (newId : String)
    (now : Nat) : BlogResp × List Blog :=
  let msgs := createValidationMessages b
  if msgs.isEmpty then
    let blog : Blog :=
      { id := newId
        title := (b.title.getD "").trim
        description := (b.description.getD "").trim
        category := (b.category.getD "").trim
        imageUrl := (b.imageUrl.getD "").trim
        status := b.status.getD "draft"
        createdAt := now
        updatedAt := now }
    (.createOk blog, store ++ [blog])
  else
    (.validationFailed msgs, store)

/-- The driver's `Blog.findById(id)`: a `CastError` (modelled as
`Except.error ()`) exactly when the identifier is not in the store's
accepted format, otherwise the first document with that id. -/
def findById (isValidId : String → Bool) (store : List Blog)
    (id : String) : Except Unit (Option Blog) :=
  if isValidId id then .ok (store.find? (fun b => b.id == id))
  else .error ()

/-- Whether a query-string field constrains a document field: the handler
only adds the filter when the query value is truthy (server.js lines
183-190), so an absent or empty query value imposes no constraint. -/
def fieldConstraint (q : Option String) (v : String) : Bool :=
  match q with
  | none => true
  | some s => s == "" || v == s

/-- The filter `getBlogs` builds from the query (server.js lines 180-190). -/
def blogMatches (qstatus qcategory : Option String) (b : Blog) : Bool :=
  fieldConstraint qstatus b.status && fieldConstraint qcategory b.category

/-- Descending creation time, the sort key of `.sort({ createdAt: -1 })`. -/
def createdDesc (a b : Blog) : Bool :=
  decide (b.createdAt ≤ a.createdAt)

/-- `GET /api/blogs` (server.js lines 177-202): filter, sort descending by
creation time, answer `{success, count, data}` with status 200. -/
def getBlogs (store : List Blog) (qstatus qcategory : Option String) :
    BlogResp :=
  let blogs := (store.filter (blogMatches qstatus qcategory)).mergeSort
    createdDesc
  .listOk blogs.length blogs

/-- `GET /api/blog/:id` (server.js lines 207-232). -/
def getBlog (isValidId : String → Bool) (store : List Blog)
    (id : String) : BlogResp :=
  match findById isValidId store id with
  | .error _ => .invalidId
  | .ok none => .notFound
  | .ok (some b) => .getOk b

/-- `POST /api/blog/new` (server.js lines 237-274): presence check on the
five fields, then the status-enum check, then `Blog.create`. Returns the
response and the store after the request. -/
def createBlog (store : List Blog) (b : CreateBody) (newId : String)
    (now : Nat) : BlogResp × List Blog :=
  if jsFalsy b.title || jsFalsy b.description || jsFalsy b.category
      || jsFalsy b.status || jsFalsy b.imageUrl then
    (.missingFields, store)
  else if !(b.status == some "published") && !(b.status == some "draft") then
    (.invalidStatus, store)
  else
    storeCreate store b newId now

/-- Update validators run only on the paths present in the update
(`runValidators: true`, server.js line 293). -/
def updateValidationMessages (u : UpdateBody) : List String :=
  (match u.title with
   | none => []
   | some s => titleMessages (some s))
    ++ (match u.description with
        | none => []
        | some s => requiredTrimMessages "Blog description is required" (some s))
    ++ (match u.category with
        | none => []
        | some s => requiredTrimMessages "Blog category is required" (some s))
    ++ (match u.imageUrl with
        | none => []
        | some s => requiredTrimMessages "Blog image URL is required" (some s))
    ++ (match u.status with
        | none => []
        | some s => if s == "published" || s == "draft" then []
                    else [statusEnumMessage s])

/-- Applying the partial update to a document: trim setters on the string
paths, `updatedAt` refreshed. -/
def applyUpdate (b : Blog) (u : UpdateBody) (now : Nat) : Blog :=
  { b with
    title := match u.title with | none => b.title | some s => s.trim
    description := match u.description with | none => b.description | some s => s.trim
    category := match u.category with | none => b.category | some s => s.trim
    imageUrl := match u.imageUrl with | none => b.imageUrl | some s => s.trim
    status := u.status.getD b.status
    updatedAt := now }

/-- `PUT /api/blog/:id` (server.js lines 279-318): existence check first
(404 if absent), then `findByIdAndUpdate` with validators; a `CastError`
answers the invalid-id response, a `ValidationError` the message list. -/
def updateBlog (isValidId : String → Bool) (store : List Blog) (id : String)
    (u : UpdateBody) (now : Nat) : BlogResp × List Blog :=
  match findById isValidId store id with
  | .error _ => (.invalidId, store)
  | .ok none => (.notFound, store)
  | .ok (some b) =>
    let msgs := updateValidationMessages u
    if msgs.isEmpty then
      let b' := applyUpdate b u now
      (.updateOk b', store.map (fun x => if x.id == id then applyUpdate x u now else x))
    else
      (.validationFailed msgs, store)

/-- `DELETE /api/blog/:id` (server.js lines 323-350): existence check first
(404 if absent), then `blog.deleteOne()` removes the found document; an
empty success payload is answered. -/
def deleteBlog (isValidId : String → Bool) (store : List Blog)
    (id : String) : BlogResp × List Blog :=
  match findById isValidId store id with
  | .error _ => (.invalidId, store)
  | .ok none => (.notFound, store)
  | .ok (some _) => (.deleteOk, store.eraseP (fun x => x.id == id))

/-! ### Error middleware and contact handler -/

/-- The error middleware's status choice (server.js line 158): reuse the
response's already-set status unless it is still the default 200, in which
case 500. -/
def errorHandlerStatus (resStatusCode : Nat) : Nat :=
  if resStatusCode == 200 then 500 else resStatusCode

/-- The three terminations of `POST /api/contact` (server.js lines
360-589): the 400 missing-fields response, the 200 success envelope, and
forwarding to the error middleware (`next(error)` in the outer catch). -/
inductive ContactResp where
  | missingFields
  | sent
  | errorPath
deriving DecidableEq, Repr

/-- The HTTP status of each contact termination: the error path goes
through the middleware with the response status still at its default. -/
def ContactResp.statusCode : ContactResp → Nat
  | .missingFields => 400
  | .sent => 200
  | .errorPath => errorHandlerStatus 200

/-- The `success` flag of the contact response envelope. -/
def ContactResp.success : ContactResp → Bool
  | .sent => true
  | _ => false

/-- The contact handler (server.js lines 360-589), with the outcome of the
two `transporter.sendMail` calls as parameters. The user-confirmation send
is wrapped in its own try/catch whose catch only logs (lines 563-569), so
its outcome does not steer control flow; a failing admin-notification send
is rethrown to the outer catch, which calls `next(error)` (lines 571-588). -/
def submitContactForm (name email phone message : Option String)
    (userSendOk adminSendOk : Bool) : ContactResp :=
  if jsFalsy name || jsFalsy email || jsFalsy message then
    .missingFields
  else
    -- transporter created, both bodies rendered (phone only appears in the
    -- rendered text); the user send's failure is swallowed:
    let _userEmailAttempted := (phone, userSendOk)
    if adminSendOk then .sent else .errorPath

/-! ### Startup sequencing -/

/-- The observable state of the startup sequencer: the two process-wide
flags, whether a `setTimeout(ConnectDB, 5000)` retry is pending, and
whether `tryPort` (the port-binding step) has been invoked. -/
structure StartupState where
  dbStatus : Bool
  emailServerStatus : Bool
  retryScheduled : Bool
  listenCalled : Bool
deriving DecidableEq, Repr

/-- One run of `ConnectDB` (server.js lines 54-67) with the given attempt
outcome: success sets `dbStatus`; failure clears it and schedules the next
retry. `ConnectDB` never itself binds the port. -/
def connectDB (outcome : Bool) (s : StartupState) : StartupState :=
  if outcome then
    { s with dbStatus := true, retryScheduled := false }
  else
    { s with dbStatus := false, retryScheduled := true }

/-- `startServer` (server.js lines 784-826): verify the mail relay (its
outcome is `emailOk`), run the first `ConnectDB` attempt, and invoke
`tryPort` only when that first attempt returned true; otherwise only log
that the start is delayed. -/
def startServer (emailOk : Bool) (attempts : Nat → Bool) : StartupState :=
  let s0 : StartupState :=
    { dbStatus := false, emailServerStatus := emailOk
      retryScheduled := false, listenCalled := false }
  let s1 := connectDB (attempts 0) s0
  if s1.dbStatus then { s1 with listenCalled := true } else s1

/-- The process state after `startServer` and the first `k` scheduled
retries have run: retry `k+1` runs `ConnectDB` again exactly when the
previous attempt left a retry scheduled. Only `startServer` ever sets
`listenCalled`. -/
def stateAfter (emailOk : Bool) (attempts : Nat → Bool) : Nat → StartupState
  | 0 => startServer emailOk attempts
  | k + 1 =>
    let s := stateAfter emailOk attempts k
    if s.retryScheduled then connectDB (attempts (k + 1)) s else s

/-! ### Port binding -/

/-- The outcome the operating system gives one `app.listen(port)` call. -/
inductive BindResult where
  | ok
  | addrInUse
  | otherError
deriving DecidableEq, Repr

/-- How the `tryPort` probe terminates. -/
inductive PortOutcome where
  | listening (port : Nat)
  | exited (code : Nat)
deriving DecidableEq, Repr

/-- `tryPort` (server.js lines 797-817): bind the candidate port; on
`EADDRINUSE` with the candidate below 65535 retry on the next port; at
65535, or on any other bind error, `process.exit(1)`. -/
def tryPort (bind : Nat → BindResult) (port : Nat) : PortOutcome :=
  match bind port with
  | .ok => .listening port
  | .addrInUse =>
    if h : port < 65535 then tryPort bind (port + 1)
    else .exited 1
  | .otherError => .exited 1
termination_by 65536 - port
decreasing_by simp_wf; omega

/-! ### Theorems -/

/-- C1: for a contact submission with name, email and message present, the
response is the success envelope exactly when the admin-notification send
succeeds, whatever the user-confirmation outcome; an admin-send failure is
surfaced through the generic error path with status 500. -/
theorem contact_success_iff_admin_send
    (name email phone message : Option String) (userSendOk adminSendOk : Bool)
    (hn : jsFalsy name = false) (he : jsFalsy email = false)
    (hm : jsFalsy message = false) :
    (submitContactForm name email phone message userSendOk adminSendOk).success
      = adminSendOk ∧
    (adminSendOk = true →
      submitContactForm name email phone message userSendOk adminSendOk
        = .sent) ∧
    (adminSendOk = false →
      submitContactForm name email phone message userSendOk adminSendOk
        = .errorPath ∧
      (submitContactForm name email phone message userSendOk
          adminSendOk).statusCode = 500) := by
  cases adminSendOk <;>
    simp [submitContactForm, hn, he, hm, ContactResp.success,
      ContactResp.statusCode, errorHandlerStatus]

/-- Witness for C1 at a concrete submission where the user-confirmation
send fails but the admin-notification send succeeds. -/
theorem contact_success_iff_admin_send_witness :
    (submitContactForm (some "Ada") (some "ada@example.com") none
      (some "hello") false true).success = true := by
  have h := contact_success_iff_admin_send (some "Ada") (some "ada@example.com")
    none (some "hello") false true (by decide) (by decide) (by decide)
  simp [h.1]

/-- C2 (evaluation at the failing startup): with the first connect attempt
failing and the first scheduled retry succeeding, `dbStatus` becomes true
after the retry, yet the port-binding step is never invoked at any point of
the execution — `tryPort` is only reachable from the initial-success branch
of `startServer`. -/
theorem startup_retry_success_never_binds :
    (fun k : Nat => decide (k = 1)) 0 = false ∧
    (stateAfter false (fun k => decide (k = 1)) 1).dbStatus = true ∧
    ∀ n, (stateAfter false (fun k => decide (k = 1)) n).listenCalled = false := by
  refine ⟨by decide, by decide, ?_⟩
  intro n
  induction n with
  | zero => decide
  | succ k ih =>
    simp only [stateAfter]
    split
    · unfold connectDB
      split <;> simpa using ih
    · exact ih

/-- C8: the port probe is a linear probe: an address-in-use failure below
65535 moves to the next port; address-in-use at or above 65535, or any
other bind error, terminates the process with a non-zero exit code; a
successful bind listens on that port. -/
theorem tryPort_linear_probe (bind : Nat → BindResult) (port : Nat) :
    (bind port = .ok → tryPort bind port = .listening port) ∧
    (bind port = .addrInUse → port < 65535 →
      tryPort bind port = tryPort bind (port + 1)) ∧
    (bind port = .addrInUse → 65535 ≤ port →
      ∃ c, tryPort bind port = .exited c ∧ c ≠ 0) ∧
    (bind port = .otherError →
      ∃ c, tryPort bind port = .exited c ∧ c ≠ 0) := by
  refine ⟨fun h => ?_, fun h hlt => ?_, fun h hge => ?_, fun h => ?_⟩
  · rw [tryPort, h]
  · rw [tryPort, h]
    simp [hlt]
  · refine ⟨1, ?_, by decide⟩
    rw [tryPort, h]
    simp [Nat.not_lt.mpr hge]
  · refine ⟨1, ?_, by decide⟩
    rw [tryPort, h]

/-- Witness for C8 at a concrete bind oracle: port 8000 is in use, so the
probe moves to port 8001. -/
theorem tryPort_linear_probe_witness :
    tryPort (fun p => if p == 8000 then .addrInUse else .ok) 8000
      = tryPort (fun p => if p == 8000 then .addrInUse else .ok) 8001 :=
  (tryPort_linear_probe (fun p => if p == 8000 then .addrInUse else .ok)
    8000).2.1 (by decide) (by decide)

/-- C3: the create handler rejects a missing field with the 400
missing-fields response before touching the store, rejects a status outside
the enumeration with the 400 invalid-status response before touching the
store, and hands exactly the requests passing both checks to the store's
create operation. -/
theorem createBlog_validates_before_store (store : List Blog) (b : CreateBody)
    (newId : String) (now : Nat) :
    ((jsFalsy b.title || jsFalsy b.description || jsFalsy b.category
        || jsFalsy b.status || jsFalsy b.imageUrl) = true →
      createBlog store b newId now = (.missingFields, store)) ∧
    (∀ s, (jsFalsy b.title || jsFalsy b.description || jsFalsy b.category
        || jsFalsy b.status || jsFalsy b.imageUrl) = false →
      b.status = some s → s ≠ "published" → s ≠ "draft" →
      createBlog store b newId now = (.invalidStatus, store)) ∧
    ((jsFalsy b.title || jsFalsy b.description || jsFalsy b.category
        || jsFalsy b.status || jsFalsy b.imageUrl) = false →
      (b.status = some "published" ∨ b.status = some "draft") →
      createBlog store b newId now = storeCreate store b newId now) ∧
    BlogResp.missingFields.statusCode = 400 ∧
    BlogResp.invalidStatus.statusCode = 400 := by
  refine ⟨fun h => ?_, fun s h hs hpub hdraft => ?_, fun h hs => ?_,
    by decide, by decide⟩
  · unfold createBlog
    rw [if_pos h]
  · unfold createBlog
    rw [if_neg (by simp [h]), if_pos (by simp [hs, hpub, hdraft])]
  · unfold createBlog
    rcases hs with hs | hs <;>
      rw [if_neg (by simp [h]), if_neg (by simp [hs])]

/-- Witness for C3 at a concrete request with the title field absent. -/
theorem createBlog_validates_before_store_witness :
    createBlog [] ⟨none, some "d", some "c", some "draft", some "u"⟩ "b1" 0
      = (.missingFields, []) :=
  (createBlog_validates_before_store []
    ⟨none, some "d", some "c", some "draft", some "u"⟩ "b1" 0).1 (by decide)

/-- The store-level create never answers the invalid-status response: its
result is either the created document or the validation message list. -/
theorem storeCreate_fst_ne_invalid (store : List Blog) (b : CreateBody)
    (newId : String) (now : Nat) :
    (storeCreate store b newId now).1 ≠ .invalidStatus := by
  by_cases h : (createValidationMessages b).isEmpty <;> simp [storeCreate, h]

/-- C9: the presence check treats the empty string like an absent field, so
any of the five fields equal to the empty string (status included) answers
the missing-fields response, and the invalid-status response is reachable
only for a non-empty status outside the enumeration. -/
theorem createBlog_empty_string_is_missing (store : List Blog)
    (b : CreateBody) (newId : String) (now : Nat) :
    ((b.title = some "" ∨ b.description = some "" ∨ b.category = some ""
        ∨ b.status = some "" ∨ b.imageUrl = some "") →
      createBlog store b newId now = (.missingFields, store)) ∧
    ((createBlog store b newId now).1 = .invalidStatus →
      ∃ s, b.status = some s ∧ s ≠ "" ∧ s ≠ "published" ∧ s ≠ "draft") := by
  constructor
  · intro h
    have hc : (jsFalsy b.title || jsFalsy b.description || jsFalsy b.category
        || jsFalsy b.status || jsFalsy b.imageUrl) = true := by
      rcases h with h | h | h | h | h <;> simp [jsFalsy, h]
    simp [createBlog, hc]
  · intro hres
    unfold createBlog at hres
    by_cases h1 : (jsFalsy b.title || jsFalsy b.description
        || jsFalsy b.category || jsFalsy b.status || jsFalsy b.imageUrl) = true
    · simp [h1] at hres
    · rw [Bool.not_eq_true] at h1
      by_cases h2 : (!(b.status == some "published")
          && !(b.status == some "draft")) = true
      · have hst : jsFalsy b.status = false := by
          simp only [Bool.or_eq_false_iff] at h1
          exact h1.1.2
        cases hs : b.status with
        | none => rw [hs] at hst; simp [jsFalsy] at hst
        | some s =>
          rw [hs] at hst h2
          simp only [jsFalsy, beq_iff_eq] at hst
          simp only [Bool.and_eq_true, Bool.not_eq_true',
            beq_eq_false_iff_ne, Option.some.injEq] at h2
          exact ⟨s, rfl, by simpa using hst, by simpa using h2.1,
            by simpa using h2.2⟩
      · rw [Bool.not_eq_true] at h2
        rw [if_neg (by simp [h1]), if_neg (by simp [h2])] at hres
        exact absurd hres (storeCreate_fst_ne_invalid store b newId now)

/-- Witness for C9 at a concrete request whose status is the empty
string. -/
theorem createBlog_empty_string_is_missing_witness :
    createBlog [] ⟨some "t", some "d", some "c", some "", some "u"⟩ "b1" 0
      = (.missingFields, []) :=
  (createBlog_empty_string_is_missing []
    ⟨some "t", some "d", some "c", some "", some "u"⟩ "b1" 0).1
    (by simp)

/-- C4: a malformed identifier answers the 400 invalid-identifier response
in all three of get, update and delete (never the 404); the 404 not-found
response is answered only when the identifier is well formed and no stored
document carries it. -/
theorem malformed_id_never_notfound (isValidId : String → Bool)
    (store : List Blog) (id : String) (u : UpdateBody) (now : Nat) :
    (isValidId id = false →
      getBlog isValidId store id = .invalidId ∧
      updateBlog isValidId store id u now = (.invalidId, store) ∧
      deleteBlog isValidId store id = (.invalidId, store)) ∧
    (getBlog isValidId store id = .notFound →
      isValidId id = true ∧ store.find? (fun x => x.id == id) = none) ∧
    ((updateBlog isValidId store id u now).1 = .notFound →
      isValidId id = true ∧ store.find? (fun x => x.id == id) = none) ∧
    ((deleteBlog isValidId store id).1 = .notFound →
      isValidId id = true ∧ store.find? (fun x => x.id == id) = none) ∧
    BlogResp.invalidId.statusCode = 400 ∧
    BlogResp.notFound.statusCode = 404 := by
  refine ⟨fun h => ?_, fun h => ?_, fun h => ?_, fun h => ?_,
    by decide, by decide⟩
  · simp [getBlog, updateBlog, deleteBlog, findById, h]
  · by_cases hv : isValidId id
    · cases hf : store.find? (fun x => x.id == id) with
      | none => exact ⟨hv, rfl⟩
      | some c => simp [getBlog, findById, hv, hf] at h
    · simp [getBlog, findById, hv] at h
  · by_cases hv : isValidId id
    · cases hf : store.find? (fun x => x.id == id) with
      | none => exact ⟨hv, rfl⟩
      | some c =>
        by_cases hm : (updateValidationMessages u).isEmpty <;>
          simp [updateBlog, findById, hv, hf, hm] at h
    · simp [updateBlog, findById, hv] at h
  · by_cases hv : isValidId id
    · cases hf : store.find? (fun x => x.id == id) with
      | none => exact ⟨hv, rfl⟩
      | some c => simp [deleteBlog, findById, hv, hf] at h
    · simp [deleteBlog, findById, hv] at h

/-- Witness for C4 at a concrete malformed identifier. -/
theorem malformed_id_never_notfound_witness :
    getBlog (fun s => s.length == 3) [] "ab" = .invalidId :=
  ((malformed_id_never_notfound (fun s => s.length == 3) [] "ab"
    ⟨none, none, none, none, none⟩ 0).1 (by decide)).1

/-- In a store whose document ids are pairwise distinct, erasing the
document with a given id leaves no document with that id to be found. -/
theorem find_eraseP_eq_none {l : List Blog} {id : String}
    (h : (l.map (fun x => x.id)).Nodup) :
    (l.eraseP (fun x => x.id == id)).find? (fun x => x.id == id) = none := by
  induction l with
  | nil => rfl
  | cons a l ih =>
    rw [List.map_cons, List.nodup_cons] at h
    by_cases ha : a.id = id
    · rw [List.eraseP_cons_of_pos (by simp [ha]), List.find?_eq_none]
      intro x hx hpx
      apply h.1
      have hx1 : x.id = id := by simpa using hpx
      rw [ha, ← hx1]
      exact List.mem_map_of_mem (fun b => b.id) hx
    · rw [List.eraseP_cons_of_neg (by simp [ha]),
        List.find?_cons_of_neg _ (by simp [ha])]
      exact ih h.2

/-- C5: delete first confirms existence, answering the 404 not-found
response and removing nothing when no document carries the id; a
successful delete answers the empty success payload with status 200, and
(ids being unique in the store) a second delete of the same id answers
the 404 not-found response. -/
theorem deleteBlog_idempotent (isValidId : String → Bool)
    (store : List Blog) (id : String)
    (hnodup : (store.map (fun x => x.id)).Nodup) :
    (findById isValidId store id = .ok none →
      deleteBlog isValidId store id = (.notFound, store)) ∧
    (∀ b, findById isValidId store id = .ok (some b) →
      deleteBlog isValidId store id
        = (.deleteOk, store.eraseP (fun x => x.id == id)) ∧
      deleteBlog isValidId (store.eraseP (fun x => x.id == id)) id
        = (.notFound, store.eraseP (fun x => x.id == id)) ∧
      BlogResp.deleteOk.success = true ∧
      BlogResp.deleteOk.statusCode = 200 ∧
      BlogResp.notFound.statusCode = 404) := by
  constructor
  · intro h
    simp [deleteBlog, h]
  · intro b hb
    have hv : isValidId id = true := by
      by_cases hv : isValidId id
      · exact hv
      · simp [findById, hv] at hb
    refine ⟨by simp [deleteBlog, hb], ?_, by decide, by decide, by decide⟩
    simp [deleteBlog, findById, hv, find_eraseP_eq_none hnodup]

/-- Witness for C5: deleting the only stored document and deleting the
same id again answers the 404 not-found response. -/
theorem deleteBlog_idempotent_witness :
    deleteBlog (fun _ => true)
        (List.eraseP (fun x => x.id == "a1")
          [(⟨"a1", "t", "d", "c", "u", "draft", 1, 1⟩ : Blog)]) "a1"
      = (.notFound,
         List.eraseP (fun x => x.id == "a1")
          [(⟨"a1", "t", "d", "c", "u", "draft", 1, 1⟩ : Blog)]) :=
  (((deleteBlog_idempotent (fun _ => true)
      [(⟨"a1", "t", "d", "c", "u", "draft", 1, 1⟩ : Blog)] "a1"
      (by decide)).2 ⟨"a1", "t", "d", "c", "u", "draft", 1, 1⟩ rfl).2).1

/-- C6: the list operation always answers the 200 success envelope whose
count is the length of its data, the data being exactly (as a multiset)
the stored documents matching the status and category constraints,
ordered by descending creation time; an absent filter field imposes no
constraint, and an empty result is still a success. -/
theorem getBlogs_spec (store : List Blog) (qstatus qcategory : Option String) :
    ∃ data,
      getBlogs store qstatus qcategory = .listOk data.length data ∧
      (getBlogs store qstatus qcategory).statusCode = 200 ∧
      (getBlogs store qstatus qcategory).success = true ∧
      data.Perm (store.filter (blogMatches qstatus qcategory)) ∧
      data.Pairwise (fun a b => b.createdAt ≤ a.createdAt) ∧
      (∀ b, blogMatches none qcategory b
        = fieldConstraint qcategory b.category) ∧
      (∀ b, blogMatches qstatus none b = fieldConstraint qstatus b.status) := by
  have htrans : ∀ a b c : Blog, createdDesc a b = true →
      createdDesc b c = true → createdDesc a c = true := by
    intro a b c hab hbc
    simp only [createdDesc, decide_eq_true_eq] at *
    omega
  have htotal : ∀ a b : Blog, (createdDesc a b || createdDesc b a) = true := by
    intro a b
    simp only [createdDesc, Bool.or_eq_true, decide_eq_true_eq]
    omega
  refine ⟨(store.filter (blogMatches qstatus qcategory)).mergeSort createdDesc,
    rfl, rfl, rfl, List.mergeSort_perm _ _, ?_,
    fun b => by simp [blogMatches, fieldConstraint],
    fun b => by simp [blogMatches, fieldConstraint]⟩
  have hp := @List.sorted_mergeSort Blog createdDesc htrans htotal
    (store.filter (blogMatches qstatus qcategory))
  exact hp.imp (fun h => by simpa [createdDesc] using h)

/-- C10: the update handler has no status enumeration check of its own: an
update of an existing document whose partial fields carry a status outside
the enumeration is answered with the store-level validation failure (400
with the per-field message list, the enum message among them), never with
the invalid-status response. -/
theorem updateBlog_status_to_validation (isValidId : String → Bool)
    (store : List Blog) (id : String) (u : UpdateBody) (now : Nat) (b : Blog)
    (hfound : findById isValidId store id = .ok (some b)) (s : String)
    (hs : u.status = some s) (hpub : s ≠ "published")
    (hdraft : s ≠ "draft") :
    updateBlog isValidId store id u now
      = (.validationFailed (updateValidationMessages u), store) ∧
    statusEnumMessage s ∈ updateValidationMessages u ∧
    (updateBlog isValidId store id u now).1 ≠ .invalidStatus ∧
    (BlogResp.validationFailed (updateValidationMessages u)).statusCode
      = 400 := by
  have hmem : statusEnumMessage s ∈ updateValidationMessages u := by
    unfold updateValidationMessages
    rw [hs]
    simp [hpub, hdraft]
  have hne : (updateValidationMessages u).isEmpty = false := by
    cases hm : updateValidationMessages u with
    | nil => rw [hm] at hmem; simp at hmem
    | cons x xs => rfl
  have hmain : updateBlog isValidId store id u now
      = (.validationFailed (updateValidationMessages u), store) := by
    simp [updateBlog, hfound, hne]
  exact ⟨hmain, hmem, by rw [hmain]; simp, rfl⟩

/-- Witness for C10: updating an existing document with status
"archived" answers the validation-failure response. -/
theorem updateBlog_status_to_validation_witness :
    updateBlog (fun _ => true)
        [(⟨"a1", "t", "d", "c", "u", "draft", 1, 1⟩ : Blog)] "a1"
        ⟨none, none, none, some "archived", none⟩ 5
      = (.validationFailed
          (updateValidationMessages ⟨none, none, none, some "archived", none⟩),
        [(⟨"a1", "t", "d", "c", "u", "draft", 1, 1⟩ : Blog)]) :=
  (updateBlog_status_to_validation (fun _ => true)
    [(⟨"a1", "t", "d", "c", "u", "draft", 1, 1⟩ : Blog)] "a1"
    ⟨none, none, none, some "archived", none⟩ 5
    ⟨"a1", "t", "d", "c", "u", "draft", 1, 1⟩ rfl "archived" rfl
    (by decide) (by decide)).1

end ImpexInfo
